import Mathlib

/-!
The ratostick USB joystick-as-mouse driver.

A shallow embedding of the two translation units of the repository,
`g_driver.c` (Variant A) and `ratostick.c` (Variant B): the interrupt
completion handler `usb_mouse_irq` with its inline report decoding,
`usb_mouse_open`, and the allocation / rollback skeleton of `usb_mouse_probe`.

Kernel services the driver calls (`input_report_key`, `usb_submit_urb`,
`kzalloc`, ...) are modelled by what they do to an explicit world: a trace of
the calls made, a count of outstanding transfer requests, a set of live
allocations.  Outcomes the driver cannot control (whether a submission is
queued, whether an allocation succeeds) are inputs.
-/

namespace Ratostick

/-! ## C integers and bytes -/

/-- One byte of raw memory, as a value 0..255. -/
abbrev Byte := Fin 256

/-- The 8-byte DMA report buffer `mouse->data`, indexed 0..7. -/
abbrev Report := Fin 8 → Byte

/-- Reduce an integer to the range of a 32-bit two's-complement `int`. -/
def wrap32 (x : Int) : Int :=
  if x % 4294967296 < 2147483648 then x % 4294967296 else x % 4294967296 - 4294967296

/-- C `x & y` on `int`: bitwise and of the 32-bit two's-complement patterns. -/
def c_and (x y : Int) : Int :=
  wrap32 (Int.ofNat (Nat.land (x % 4294967296).toNat (y % 4294967296).toNat))

/-- C `x / y` on `int`: the quotient truncated toward zero. -/
def c_div (x y : Int) : Int := Int.tdiv x y

/-- C `x == y` on `int`: 1 when equal, 0 otherwise. -/
def c_eq (x y : Int) : Int := if x = y then 1 else 0

/-- Reading a byte through a `signed char *` and promoting it to `int`
(`g_driver.c`, line 52): values 128..255 become -128..-1. -/
def schar (b : Byte) : Int := if b.val < 128 then (b.val : Int) else (b.val : Int) - 256

/-- Reading a byte through an `unsigned char *` and promoting it to `int`
(`ratostick.c`, line 40): the value 0..255 itself. -/
def uchar (b : Byte) : Int := (b.val : Int)

/-! ## Linux error numbers (errno-base.h, errno.h) -/

/-- No such file or directory. -/
def ENOENT : Int := 2
/-- Input/output error. -/
def EIO : Int := 5
/-- Out of memory. -/
def ENOMEM : Int := 12
/-- No such device. -/
def ENODEV : Int := 19
/-- Connection reset by peer; the status of an unlinked request. -/
def ECONNRESET : Int := 104
/-- Cannot send after transport endpoint shutdown. -/
def ESHUTDOWN : Int := 108

/-! ## Input event codes and the world the handler acts on -/

/-- The key and button codes the two drivers report. -/
inductive KeyCode
  | KEY_UP | KEY_RIGHT | KEY_DOWN | KEY_LEFT
  | KEY_1 | KEY_2 | KEY_3 | KEY_4
  | KEY_ENTER | KEY_BACKSPACE | KEY_9 | KEY_0
  | BTN_LEFT | BTN_RIGHT
  deriving DecidableEq, Repr

/-- The relative axes the two drivers report. -/
inductive RelCode
  | REL_X | REL_Y | REL_WHEEL
  deriving DecidableEq, Repr

/-- One observable call made by the driver. -/
inductive Action
  /-- A call `input_event(dev, EV_KEY, code, value)` reaching the input sink. -/
  | key (code : KeyCode) (value : Int)
  /-- A call `input_event(dev, EV_REL, code, value)` reaching the input sink. -/
  | rel (code : RelCode) (value : Int)
  /-- A call `input_sync(dev)`. -/
  | sync
  /-- A call of `usb_submit_urb`, with the status it returned. -/
  | submit (status : Int)
  /-- A `pr_info` line in the kernel log. -/
  | pr_info
  /-- A `dev_err` line in the kernel log, with the status it prints. -/
  | dev_err (status : Int)
  deriving DecidableEq, Repr

/-- Is the action an event delivered to the input sink (key, rel or sync)? -/
def Action.isSink : Action → Bool
  | .key _ _ => true
  | .rel _ _ => true
  | .sync => true
  | _ => false

/-- Is the action a key or relative-axis report? -/
def Action.isReport : Action → Bool
  | .key _ _ => true
  | .rel _ _ => true
  | _ => false

/-- Is the action a call of `usb_submit_urb`? -/
def Action.isSubmit : Action → Bool
  | .submit _ => true
  | _ => false

/-- What the driver can change and an observer can see. -/
structure World where
  /-- The calls made so far, oldest first. -/
  trace : List Action
  /-- How many times `usb_submit_urb` has been called. -/
  submits : Nat
  /-- How many transfer requests the bus layer holds queued. -/
  outstanding : Nat
  /-- The field `mouse->irq->dev`. -/
  irq_dev : Option Nat
  deriving Repr

/-- The call `input_report_key(dev, code, value)`: the kernel inline forwards
`input_event(dev, EV_KEY, code, !!value)`. -/
def input_report_key (code : KeyCode) (value : Int) : Action :=
  .key code (if value ≠ 0 then 1 else 0)

/-- The call `input_report_rel(dev, code, value)`: forwards
`input_event(dev, EV_REL, code, value)`. -/
def input_report_rel (code : RelCode) (value : Int) : Action :=
  .rel code value

/-- Append calls to the trace. -/
def World.emit (w : World) (as : List Action) : World :=
  { w with trace := w.trace ++ as }

/-- The call `usb_submit_urb(urb, flags)`: the bus layer decides the outcome;
`bus k` is the status the k-th call (counting from 0) returns, 0 meaning the
request was queued.  A queued request is outstanding until it completes. -/
def usb_submit_urb (bus : Nat → Int) (w : World) : Int × World :=
  (bus w.submits,
   { w with
     trace := w.trace ++ [.submit (bus w.submits)]
     submits := w.submits + 1
     outstanding := if bus w.submits = 0 then w.outstanding + 1 else w.outstanding })

/-- The code at the label `resubmit:` of `usb_mouse_irq` (the same in both
files): submit the request again, and log a failure. -/
def resubmit (bus : Nat → Int) (w : World) : World :=
  if (usb_submit_urb bus w).1 ≠ 0 then
    (usb_submit_urb bus w).2.emit [.dev_err (usb_submit_urb bus w).1]
  else
    (usb_submit_urb bus w).2

/-! ## Variant A: g_driver.c -/

namespace g_driver

/-- The report calls of `usb_mouse_irq`, `g_driver.c` lines 90-100, in
order; `data` is a `signed char *`. -/
def decode (data : Report) : List Action :=
  [ input_report_key .BTN_LEFT (c_and (schar (data 6)) 0x04),
    input_report_key .BTN_RIGHT (c_and (schar (data 6)) 0x08),
    input_report_rel .REL_X (c_div (c_and (schar (data 3)) 0xFF - 128) 32),
    input_report_rel .REL_Y (c_div (c_and (schar (data 4)) 0xFF - 128) 32),
    input_report_rel .REL_WHEEL (c_div (c_and (schar (data 1)) 0xFF - 128) 64 * -1) ]

/-- The handler `usb_mouse_irq`, `g_driver.c` lines 49-113. `status` is `urb->status`. -/
def usb_mouse_irq (bus : Nat → Int) (status : Int) (data : Report) (w : World) : World :=
  if status = 0 then
    resubmit bus (((w.emit [.pr_info]).emit (decode data)).emit [.sync])
  else if status = -ECONNRESET ∨ status = -ENOENT ∨ status = -ESHUTDOWN then
    w.emit [.pr_info]
  else
    resubmit bus (w.emit [.pr_info])

/-- The function `usb_mouse_open`, `g_driver.c` lines 115-125. `usbdev` is `mouse->usbdev`. -/
def usb_mouse_open (bus : Nat → Int) (usbdev : Nat) (w : World) : Int × World :=
  if (usb_submit_urb bus { w.emit [.pr_info] with irq_dev := some usbdev }).1 ≠ 0 then
    (- EIO, (usb_submit_urb bus { w.emit [.pr_info] with irq_dev := some usbdev }).2)
  else
    (0, (usb_submit_urb bus { w.emit [.pr_info] with irq_dev := some usbdev }).2)

end g_driver

/-! ## Variant B: ratostick.c -/

namespace ratostick

/-- The report calls of `usb_mouse_irq`, `ratostick.c` lines 83-102, in
order; `data` is an `unsigned char *`. -/
def decode (data : Report) : List Action :=
  [ input_report_key .KEY_UP (c_eq (c_and (uchar (data 5)) 0x0F) 0),
    input_report_key .KEY_RIGHT (c_eq (c_and (uchar (data 5)) 0x0F) 2),
    input_report_key .KEY_DOWN (c_eq (c_and (uchar (data 5)) 0x0F) 4),
    input_report_key .KEY_LEFT (c_eq (c_and (uchar (data 5)) 0x0F) 6),
    input_report_key .KEY_1 (c_and (uchar (data 5)) 0x10),
    input_report_key .KEY_2 (c_and (uchar (data 5)) 0x20),
    input_report_key .KEY_3 (c_and (uchar (data 5)) 0x40),
    input_report_key .KEY_4 (c_and (uchar (data 5)) 0x80),
    input_report_key .KEY_ENTER (c_and (uchar (data 6)) 0x01),
    input_report_key .KEY_BACKSPACE (c_and (uchar (data 6)) 0x02),
    input_report_key .KEY_9 (c_and (uchar (data 6)) 0x10),
    input_report_key .KEY_0 (c_and (uchar (data 6)) 0x20),
    input_report_key .BTN_LEFT (c_and (uchar (data 6)) 0x04),
    input_report_key .BTN_RIGHT (c_and (uchar (data 6)) 0x08),
    input_report_rel .REL_X (c_div (uchar (data 3) - 128) 32),
    input_report_rel .REL_Y (c_div (uchar (data 4) - 128) 32),
    input_report_rel .REL_WHEEL (c_div (uchar (data 1) - 128) 64 * -1) ]

/-- The handler `usb_mouse_irq`, `ratostick.c` lines 37-117. `status` is `urb->status`. -/
def usb_mouse_irq (bus : Nat → Int) (status : Int) (data : Report) (w : World) : World :=
  if status = 0 then
    resubmit bus ((w.emit (decode data)).emit [.sync])
  else if status = -ECONNRESET ∨ status = -ENOENT ∨ status = -ESHUTDOWN then
    w
  else
    resubmit bus w

/-- The function `usb_mouse_open`, `ratostick.c` lines 119-128. `usbdev` is `mouse->usbdev`. -/
def usb_mouse_open (bus : Nat → Int) (usbdev : Nat) (w : World) : Int × World :=
  if (usb_submit_urb bus { w with irq_dev := some usbdev }).1 ≠ 0 then
    (- EIO, (usb_submit_urb bus { w with irq_dev := some usbdev }).2)
  else
    (0, (usb_submit_urb bus { w with irq_dev := some usbdev }).2)

end ratostick

/-! ## Allocation and rollback in `usb_mouse_probe` -/

/-- The resources `usb_mouse_probe` allocates. -/
inductive Resource
  /-- The device session, from `kzalloc(sizeof(struct usb_mouse), GFP_KERNEL)`. -/
  | session
  /-- The input device, from `input_allocate_device()`. -/
  | input_dev
  /-- The DMA buffer, from `usb_alloc_coherent(dev, size, ...)`. -/
  | coherent (size : Nat)
  /-- The transfer request, from `usb_alloc_urb(0, GFP_KERNEL)`. -/
  | urb
  deriving DecidableEq, Repr

/-- One allocator call that took effect. -/
inductive MemOp
  | alloc (r : Resource) (handle : Nat)
  | free (r : Resource) (handle : Nat)
  deriving DecidableEq, Repr

/-- The kernel state `usb_mouse_probe` acts on. -/
structure Kernel where
  /-- The live allocations, newest first. -/
  live : List (Resource × Nat)
  /-- The handle the next successful allocation returns. -/
  next : Nat
  /-- The allocator calls that took effect, oldest first. -/
  ops : List MemOp
  /-- The input device registered by `input_register_device`, if any. -/
  registered : Option Nat
  /-- The interface's driver data, set by `usb_set_intfdata`. -/
  intfdata : Option Nat
  deriving DecidableEq, Repr

/-- An allocator call for resource `r`; `ok` says whether the kernel grants
it. A refused call returns NULL (`none`) and changes nothing. -/
def Kernel.alloc (k : Kernel) (ok : Bool) (r : Resource) : Option Nat × Kernel :=
  if ok then
    (some k.next,
     { k with live := (r, k.next) :: k.live, next := k.next + 1,
              ops := k.ops ++ [.alloc r k.next] })
  else
    (none, k)

/-- The matching release call (`kfree`, `input_free_device`,
`usb_free_coherent`, `usb_free_urb`); releasing NULL does nothing. -/
def Kernel.free (k : Kernel) (r : Resource) (p : Option Nat) : Kernel :=
  match p with
  | none => k
  | some a => { k with live := k.live.erase (r, a), ops := k.ops ++ [.free r a] }

/-- The outcomes the kernel decides during one run of `usb_mouse_probe`. -/
structure Outcomes where
  /-- Does `kzalloc` succeed? -/
  kzalloc : Bool
  /-- Does `input_allocate_device` succeed? -/
  input_allocate_device : Bool
  /-- Does `usb_alloc_coherent` succeed? -/
  usb_alloc_coherent : Bool
  /-- Does `usb_alloc_urb` succeed? -/
  usb_alloc_urb : Bool
  /-- The status `input_register_device` returns, 0 for success. -/
  input_register_device : Int
  deriving DecidableEq, Repr

/-- The fields of `struct usb_endpoint_descriptor` the driver looks at. -/
structure usb_endpoint_descriptor where
  bEndpointAddress : Byte
  bmAttributes : Byte
  deriving DecidableEq, Repr

/-- The predicate `usb_endpoint_is_int_in` of the USB core: the transfer type (low two bits
of `bmAttributes`) is interrupt (3) and the direction bit (0x80 of
`bEndpointAddress`) is IN. -/
def usb_endpoint_is_int_in (epd : usb_endpoint_descriptor) : Bool :=
  decide (epd.bmAttributes.val &&& 0x03 = 3) && decide (epd.bEndpointAddress.val &&& 0x80 = 0x80)

/-- The current alternate setting of the interface: `desc.bNumEndpoints` and
the array `endpoint[]` of that many descriptors. -/
structure usb_host_interface where
  bNumEndpoints : Nat
  endpoint : Fin bNumEndpoints → usb_endpoint_descriptor

namespace ratostick

/-- The code at the label `fail1:` of `usb_mouse_probe`, lines 248-251. -/
def fail1 (input_dev mouse : Option Nat) (error : Int) (k : Kernel) : Int × Kernel :=
  (error, (k.free .input_dev input_dev).free .session mouse)

/-- The code at the label `fail2:` of `usb_mouse_probe`, falling through to
`fail1:`. -/
def fail2 (data input_dev mouse : Option Nat) (error : Int) (k : Kernel) : Int × Kernel :=
  fail1 input_dev mouse error (k.free (.coherent 8) data)

/-- The code at the label `fail3:` of `usb_mouse_probe`, falling through to
`fail2:`. -/
def fail3 (irq data input_dev mouse : Option Nat) (error : Int) (k : Kernel) :
    Int × Kernel :=
  fail2 data input_dev mouse error (k.free .urb irq)

/-- The function `usb_mouse_probe`, `ratostick.c` lines 140-252. Lines 176-235 (name and
path strings, capability bits, `usb_fill_int_urb`) only write fields of the
objects already allocated and are not represented. -/
def usb_mouse_probe (intf : usb_host_interface) (o : Outcomes) (k : Kernel) :
    Int × Kernel :=
  if h : intf.bNumEndpoints ≠ 2 then
    (-ENODEV, k)
  else if !usb_endpoint_is_int_in (intf.endpoint ⟨0, by omega⟩) then
    (-ENODEV, k)
  else
    match k.alloc o.kzalloc .session with
    | (mouse, k1) =>
      match k1.alloc o.input_allocate_device .input_dev with
      | (input_dev, k2) =>
        if mouse = none ∨ input_dev = none then
          fail1 input_dev mouse (-ENOMEM) k2
        else
          match k2.alloc o.usb_alloc_coherent (.coherent 8) with
          | (data, k3) =>
            if data = none then
              fail1 input_dev mouse (-ENOMEM) k3
            else
              match k3.alloc o.usb_alloc_urb .urb with
              | (irq, k4) =>
                if irq = none then
                  fail2 data input_dev mouse (-ENOMEM) k4
                else if o.input_register_device ≠ 0 then
                  fail3 irq data input_dev mouse o.input_register_device k4
                else
                  (0, { k4 with registered := input_dev, intfdata := mouse })

end ratostick

/-- The interface passes the endpoint checks of `usb_mouse_probe`: it has
exactly two endpoints and the first is interrupt-IN. -/
def endpoints_ok (intf : usb_host_interface) : Bool :=
  if h : intf.bNumEndpoints = 2 then
    usb_endpoint_is_int_in (intf.endpoint ⟨0, by omega⟩)
  else
    false

/-- The state after a failed probe: the allocations `rs` were made in order
and then released in reverse order, and nothing else changed. -/
def rolledBack (k k' : Kernel) (rs : List (Resource × Nat)) : Prop :=
  k'.ops = k.ops ++ rs.map (fun r => MemOp.alloc r.1 r.2)
      ++ rs.reverse.map (fun r => MemOp.free r.1 r.2) ∧
  k'.live = k.live ∧ k'.registered = k.registered ∧ k'.intfdata = k.intfdata

/-- A kernel with nothing allocated. -/
def Kernel.empty : Kernel :=
  { live := [], next := 0, ops := [], registered := none, intfdata := none }

/-- An interface with `n` endpoints, each with the given descriptor bytes. -/
def uniformInterface (n : Nat) (addr attr : Byte) : usb_host_interface :=
  { bNumEndpoints := n, endpoint := fun _ => { bEndpointAddress := addr, bmAttributes := attr } }

/-! ## Observations on a list of events -/

/-- The value of the last key report for `code`, if there is one. -/
def keyState (evs : List Action) (code : KeyCode) : Option Int :=
  evs.reverse.findSome? fun a =>
    match a with
    | .key c v => if c = code then some v else none
    | _ => none

/-- The key is reported down: its last report carries the value 1. -/
def keyDown (evs : List Action) (code : KeyCode) : Bool :=
  keyState evs code == some 1

/-- The value of the last relative-axis report for `code`, if there is one. -/
def relDelta (evs : List Action) (code : RelCode) : Option Int :=
  evs.reverse.findSome? fun a =>
    match a with
    | .rel c v => if c = code then some v else none
    | _ => none

/-- What `input_report_key` delivers for the masked byte `b & m`. -/
def maskKey (b : Byte) (m : Int) : Option Int :=
  some (if c_and (uchar b) m ≠ 0 then 1 else 0)

/-- What `input_report_key` delivers for the test `(b & 0x0F) == n`. -/
def nibbleKey (b : Byte) (n : Int) : Option Int :=
  some (if c_eq (c_and (uchar b) 0x0F) n ≠ 0 then 1 else 0)

/-- A report with every byte zero except those given for bytes 1, 3 and 4. -/
def axisReport (b1 b3 b4 : Byte) : Report := ![0, b1, 0, b3, b4, 0, 0, 0]

/-- The idle world: nothing logged, nothing submitted, nothing outstanding. -/
def World.idle : World := { trace := [], submits := 0, outstanding := 0, irq_dev := none }

/-! ## Byte-level facts about the C expressions -/

theorem c_and_schar_ff (b : Byte) : c_and (schar b) 0xFF = (b.val : Int) := by
  revert b; decide!

theorem relDelta_g_driver (data : Report) :
    relDelta (g_driver.decode data) .REL_X = some (Int.tdiv ((data 3).val - 128) 32) ∧
    relDelta (g_driver.decode data) .REL_Y = some (Int.tdiv ((data 4).val - 128) 32) ∧
    relDelta (g_driver.decode data) .REL_WHEEL
      = some (-(Int.tdiv ((data 1).val - 128) 64)) := by
  simp [g_driver.decode, relDelta, input_report_key, input_report_rel, c_div,
    c_and_schar_ff]

theorem relDelta_ratostick (data : Report) :
    relDelta (ratostick.decode data) .REL_X = some (Int.tdiv ((data 3).val - 128) 32) ∧
    relDelta (ratostick.decode data) .REL_Y = some (Int.tdiv ((data 4).val - 128) 32) ∧
    relDelta (ratostick.decode data) .REL_WHEEL
      = some (-(Int.tdiv ((data 1).val - 128) 64)) := by
  simp [ratostick.decode, relDelta, input_report_key, input_report_rel, c_div, uchar]

theorem keyState_ratostick (data : Report) :
    keyState (ratostick.decode data) .KEY_UP = nibbleKey (data 5) 0 ∧
    keyState (ratostick.decode data) .KEY_RIGHT = nibbleKey (data 5) 2 ∧
    keyState (ratostick.decode data) .KEY_DOWN = nibbleKey (data 5) 4 ∧
    keyState (ratostick.decode data) .KEY_LEFT = nibbleKey (data 5) 6 ∧
    keyState (ratostick.decode data) .KEY_1 = maskKey (data 5) 0x10 ∧
    keyState (ratostick.decode data) .KEY_2 = maskKey (data 5) 0x20 ∧
    keyState (ratostick.decode data) .KEY_3 = maskKey (data 5) 0x40 ∧
    keyState (ratostick.decode data) .KEY_4 = maskKey (data 5) 0x80 ∧
    keyState (ratostick.decode data) .KEY_ENTER = maskKey (data 6) 0x01 ∧
    keyState (ratostick.decode data) .KEY_BACKSPACE = maskKey (data 6) 0x02 ∧
    keyState (ratostick.decode data) .KEY_9 = maskKey (data 6) 0x10 ∧
    keyState (ratostick.decode data) .KEY_0 = maskKey (data 6) 0x20 ∧
    keyState (ratostick.decode data) .BTN_LEFT = maskKey (data 6) 0x04 ∧
    keyState (ratostick.decode data) .BTN_RIGHT = maskKey (data 6) 0x08 := by
  simp [ratostick.decode, keyState, input_report_key, input_report_rel, maskKey, nibbleKey]

theorem keyState_g_driver (data : Report) :
    keyState (g_driver.decode data) .BTN_LEFT
      = some (if c_and (schar (data 6)) 0x04 ≠ 0 then 1 else 0) ∧
    keyState (g_driver.decode data) .BTN_RIGHT
      = some (if c_and (schar (data 6)) 0x08 ≠ 0 then 1 else 0) := by
  simp [g_driver.decode, keyState, input_report_key, input_report_rel]

/-! ## Facts about the trace -/

theorem filter_isSink_ratostick (data : Report) :
    (ratostick.decode data).filter Action.isSink = ratostick.decode data := by
  simp [ratostick.decode, input_report_key, input_report_rel, Action.isSink]

theorem filter_isSink_g_driver (data : Report) :
    (g_driver.decode data).filter Action.isSink = g_driver.decode data := by
  simp [g_driver.decode, input_report_key, input_report_rel, Action.isSink]

theorem filter_isSubmit_ratostick (data : Report) :
    (ratostick.decode data).filter Action.isSubmit = [] := by
  simp [ratostick.decode, input_report_key, input_report_rel, Action.isSubmit]

theorem filter_isSubmit_g_driver (data : Report) :
    (g_driver.decode data).filter Action.isSubmit = [] := by
  simp [g_driver.decode, input_report_key, input_report_rel, Action.isSubmit]

theorem resubmit_trace (bus : Nat → Int) (w : World) :
    (resubmit bus w).trace = w.trace ++ .submit (bus w.submits) ::
      (if bus w.submits ≠ 0 then [.dev_err (bus w.submits)] else []) := by
  unfold resubmit usb_submit_urb World.emit
  split <;> simp_all

theorem resubmit_submits (bus : Nat → Int) (w : World) :
    (resubmit bus w).submits = w.submits + 1 := by
  unfold resubmit
  split <;> simp [usb_submit_urb, World.emit]

theorem resubmit_outstanding (bus : Nat → Int) (w : World) :
    (resubmit bus w).outstanding
      = w.outstanding + (if bus w.submits = 0 then 1 else 0) := by
  unfold resubmit usb_submit_urb World.emit
  split <;> simp_all

/-! ## Facts about probe -/

theorem probe_rejects (intf : usb_host_interface) (o : Outcomes) (k : Kernel)
    (h : endpoints_ok intf = false) :
    ratostick.usb_mouse_probe intf o k = (-ENODEV, k) := by
  unfold ratostick.usb_mouse_probe
  by_cases h2 : intf.bNumEndpoints = 2
  · have hin : usb_endpoint_is_int_in (intf.endpoint ⟨0, by omega⟩) = false := by
      simpa [endpoints_ok, h2] using h
    simp [h2, hin]
  · simp [h2]

theorem probe_accepted (intf : usb_host_interface) (o : Outcomes) (k : Kernel)
    (h : endpoints_ok intf = true) :
    (o.kzalloc = false ∨ o.input_allocate_device = false ∨ o.usb_alloc_coherent = false
        ∨ o.usb_alloc_urb = false →
      (ratostick.usb_mouse_probe intf o k).1 = -ENOMEM) ∧
    ((ratostick.usb_mouse_probe intf o k).1 ≠ 0 →
      ∃ rs, rolledBack k (ratostick.usb_mouse_probe intf o k).2 rs) := by
  have h2 : intf.bNumEndpoints = 2 := by
    by_contra hne
    simp [endpoints_ok, hne] at h
  have hin : usb_endpoint_is_int_in (intf.endpoint ⟨0, by omega⟩) = true := by
    simpa [endpoints_ok, h2] using h
  have hmem : -ENOMEM ≠ 0 := by decide
  obtain ⟨a, b, c, d, e⟩ := o
  unfold ratostick.usb_mouse_probe
  simp only [h2, ne_eq, not_true_eq_false, dite_false, hin, Bool.not_true, Bool.false_eq_true,
    if_false]
  cases a
  · cases b
    · refine ⟨fun _ => ?_, fun _ => ⟨[], ?_⟩⟩ <;>
        simp [Kernel.alloc, Kernel.free, ratostick.fail1, rolledBack]
    · refine ⟨fun _ => ?_, fun _ => ⟨[(.input_dev, k.next)], ?_⟩⟩ <;>
        simp [Kernel.alloc, Kernel.free, ratostick.fail1, rolledBack]
  · cases b
    · refine ⟨fun _ => ?_, fun _ => ⟨[(.session, k.next)], ?_⟩⟩ <;>
        simp [Kernel.alloc, Kernel.free, ratostick.fail1, rolledBack]
    · cases c
      · refine ⟨fun _ => ?_, fun _ =>
          ⟨[(.session, k.next), (.input_dev, k.next + 1)], ?_⟩⟩ <;>
          simp [Kernel.alloc, Kernel.free, ratostick.fail1, rolledBack]
      · cases d
        · refine ⟨fun _ => ?_, fun _ =>
            ⟨[(.session, k.next), (.input_dev, k.next + 1),
              (.coherent 8, k.next + 1 + 1)], ?_⟩⟩ <;>
            simp [Kernel.alloc, Kernel.free, ratostick.fail1, ratostick.fail2, rolledBack]
        · by_cases he : e = 0
          · refine ⟨fun hf => ?_, fun hr => ?_⟩
            · simp at hf
            · simp [Kernel.alloc, he] at hr
          · refine ⟨fun hf => ?_, fun _ =>
              ⟨[(.session, k.next), (.input_dev, k.next + 1),
                (.coherent 8, k.next + 1 + 1), (.urb, k.next + 1 + 1 + 1)], ?_⟩⟩
            · simp at hf
            · simp [Kernel.alloc, Kernel.free, ratostick.fail1, ratostick.fail2,
                ratostick.fail3, rolledBack, he]

/-! ## Concrete runs -/

theorem probe_one_endpoint :
    ratostick.usb_mouse_probe (uniformInterface 1 0x81 3) ⟨true, true, true, true, 0⟩
      Kernel.empty = (-ENODEV, Kernel.empty) := by
  decide

theorem probe_urb_refused :
    (ratostick.usb_mouse_probe (uniformInterface 2 0x81 3) ⟨true, true, true, false, 0⟩
      Kernel.empty).2.ops
      = [.alloc .session 0, .alloc .input_dev 1, .alloc (.coherent 8) 2,
         .free (.coherent 8) 2, .free .input_dev 1, .free .session 0] := by
  decide

theorem probe_succeeds :
    (ratostick.usb_mouse_probe (uniformInterface 2 0x81 3) ⟨true, true, true, true, 0⟩
      Kernel.empty).1 = 0 ∧
    (ratostick.usb_mouse_probe (uniformInterface 2 0x81 3) ⟨true, true, true, true, 0⟩
      Kernel.empty).2.live
      = [(.urb, 3), (.coherent 8, 2), (.input_dev, 1), (.session, 0)] := by
  decide

theorem irq_success_run :
    (ratostick.usb_mouse_irq (fun _ => 0) 0 (axisReport 0 255 128) World.idle).trace
      = ratostick.decode (axisReport 0 255 128) ++ [.sync, .submit 0] ∧
    (ratostick.usb_mouse_irq (fun _ => 0) 0 (axisReport 0 255 128) World.idle).outstanding
      = 1 ∧
    relDelta (ratostick.decode (axisReport 0 255 128)) .REL_X = some 3 ∧
    keyDown (ratostick.decode (axisReport 0 255 128)) .KEY_UP = true := by
  decide

/-! ## The claims -/

/-- C1: Variant A computes REL_X = (byte3 - 128) / 32, REL_Y = (byte4 - 128) / 32
and REL_WHEEL = -((byte1 - 128) / 64) on the unsigned byte values, with the
quotient truncated toward zero: byte 128 gives 0, byte 0 gives X = -4, byte 127
gives X = 0 where the floor quotient is -1, byte 255 gives X = 3, and the wheel
is 2 for byte1 = 0 and -1 for byte1 = 255. -/
theorem g_driver_axes_truncate (data : Report) :
    relDelta (g_driver.decode data) .REL_X = some (Int.tdiv ((data 3).val - 128) 32) ∧
    relDelta (g_driver.decode data) .REL_Y = some (Int.tdiv ((data 4).val - 128) 32) ∧
    relDelta (g_driver.decode data) .REL_WHEEL
      = some (-(Int.tdiv ((data 1).val - 128) 64)) ∧
    (data 3 = 128 → relDelta (g_driver.decode data) .REL_X = some 0) ∧
    (data 3 = 0 → relDelta (g_driver.decode data) .REL_X = some (-4)) ∧
    (data 3 = 127 → relDelta (g_driver.decode data) .REL_X = some 0 ∧
      Int.fdiv ((data 3).val - 128) 32 = -1) ∧
    (data 3 = 255 → relDelta (g_driver.decode data) .REL_X = some 3) ∧
    (data 1 = 0 → relDelta (g_driver.decode data) .REL_WHEEL = some 2) ∧
    (data 1 = 255 → relDelta (g_driver.decode data) .REL_WHEEL = some (-1)) := by
  obtain ⟨hx, hy, hw⟩ := relDelta_g_driver data
  refine ⟨hx, hy, hw, ?_, ?_, ?_, ?_, ?_, ?_⟩
  · intro h; rw [hx, h]; decide
  · intro h; rw [hx, h]; decide
  · intro h; rw [hx, h]; decide
  · intro h; rw [hx, h]; decide
  · intro h; rw [hw, h]; decide
  · intro h; rw [hw, h]; decide

/-- C2: in Variant B, with n = byte5 & 0x0F, KEY_UP is reported down iff n = 0,
KEY_RIGHT iff n = 2, KEY_DOWN iff n = 4, KEY_LEFT iff n = 6; at most one of the
four is down, and for n in 1, 3, 5, 7, 8..15 none is, whatever the high nibble
of byte 5. -/
theorem ratostick_directional_decode (data : Report) :
    (keyDown (ratostick.decode data) .KEY_UP ↔ (data 5).val &&& 0x0F = 0) ∧
    (keyDown (ratostick.decode data) .KEY_RIGHT ↔ (data 5).val &&& 0x0F = 2) ∧
    (keyDown (ratostick.decode data) .KEY_DOWN ↔ (data 5).val &&& 0x0F = 4) ∧
    (keyDown (ratostick.decode data) .KEY_LEFT ↔ (data 5).val &&& 0x0F = 6) ∧
    ([KeyCode.KEY_UP, .KEY_RIGHT, .KEY_DOWN, .KEY_LEFT].filter
        fun c => keyDown (ratostick.decode data) c).length ≤ 1 ∧
    ((data 5).val &&& 0x0F ∈ [1, 3, 5, 7, 8, 9, 10, 11, 12, 13, 14, 15] →
      [KeyCode.KEY_UP, .KEY_RIGHT, .KEY_DOWN, .KEY_LEFT].filter
        (fun c => keyDown (ratostick.decode data) c) = []) ∧
    (data 5).val &&& 0x0F < 16 := by
  obtain ⟨hu, hr, hd, hl, -⟩ := keyState_ratostick data
  simp only [keyDown, List.filter_cons, List.filter_nil, hu, hr, hd, hl]
  generalize data 5 = b
  refine ⟨?_, ?_, ?_, ?_, ?_, ?_, ?_⟩
  · revert b; decide!
  · revert b; decide!
  · revert b; decide!
  · revert b; decide!
  · revert b; decide!
  · revert b; decide!
  · revert b; decide!

/-- C7: in Variant B each non-directional key is reported down exactly when
its own bit is set: KEY_1..KEY_4 follow bits 4..7 of byte 5, KEY_ENTER bit 0,
KEY_BACKSPACE bit 1, KEY_9 bit 4 and KEY_0 bit 5 of byte 6; a masked value
such as 128 counts as down. -/
theorem ratostick_key_table (data : Report) :
    keyDown (ratostick.decode data) .KEY_1 = (data 5).val.testBit 4 ∧
    keyDown (ratostick.decode data) .KEY_2 = (data 5).val.testBit 5 ∧
    keyDown (ratostick.decode data) .KEY_3 = (data 5).val.testBit 6 ∧
    keyDown (ratostick.decode data) .KEY_4 = (data 5).val.testBit 7 ∧
    keyDown (ratostick.decode data) .KEY_ENTER = (data 6).val.testBit 0 ∧
    keyDown (ratostick.decode data) .KEY_BACKSPACE = (data 6).val.testBit 1 ∧
    keyDown (ratostick.decode data) .KEY_9 = (data 6).val.testBit 4 ∧
    keyDown (ratostick.decode data) .KEY_0 = (data 6).val.testBit 5 := by
  obtain ⟨-, -, -, -, h1, h2, h3, h4, he, hb, h9, h0, -⟩ := keyState_ratostick data
  simp only [keyDown, h1, h2, h3, h4, he, hb, h9, h0]
  generalize data 5 = b
  generalize data 6 = c
  refine ⟨?_, ?_, ?_, ?_, ?_, ?_, ?_, ?_⟩
  · revert b; decide!
  · revert b; decide!
  · revert b; decide!
  · revert b; decide!
  · revert c; decide!
  · revert c; decide!
  · revert c; decide!
  · revert c; decide!

/-- C8: for every buffer the two variants report the same BTN_LEFT and
BTN_RIGHT states: BTN_LEFT is down iff bit 2 of byte 6 is set and BTN_RIGHT iff
bit 3 is, whether byte 6 is read as signed or unsigned char. -/
theorem pointer_buttons_agree (data : Report) :
    keyState (g_driver.decode data) .BTN_LEFT
      = keyState (ratostick.decode data) .BTN_LEFT ∧
    keyState (g_driver.decode data) .BTN_RIGHT
      = keyState (ratostick.decode data) .BTN_RIGHT ∧
    keyDown (g_driver.decode data) .BTN_LEFT = (data 6).val.testBit 2 ∧
    keyDown (ratostick.decode data) .BTN_LEFT = (data 6).val.testBit 2 ∧
    keyDown (g_driver.decode data) .BTN_RIGHT = (data 6).val.testBit 3 ∧
    keyDown (ratostick.decode data) .BTN_RIGHT = (data 6).val.testBit 3 := by
  obtain ⟨-, -, -, -, -, -, -, -, -, -, -, -, hl, hr⟩ := keyState_ratostick data
  obtain ⟨gl, gr⟩ := keyState_g_driver data
  simp only [keyDown, hl, hr, gl, gr, maskKey]
  generalize data 6 = c
  revert c
  decide!

/-- C10: for every buffer the two variants report identical REL_X, REL_Y and
REL_WHEEL values; X and Y lie in -4..3 and the wheel in -1..2. -/
theorem rel_motion_agree (data : Report) :
    relDelta (g_driver.decode data) .REL_X = relDelta (ratostick.decode data) .REL_X ∧
    relDelta (g_driver.decode data) .REL_Y = relDelta (ratostick.decode data) .REL_Y ∧
    relDelta (g_driver.decode data) .REL_WHEEL
      = relDelta (ratostick.decode data) .REL_WHEEL ∧
    (∃ x, relDelta (ratostick.decode data) .REL_X = some x ∧ -4 ≤ x ∧ x ≤ 3) ∧
    (∃ y, relDelta (ratostick.decode data) .REL_Y = some y ∧ -4 ≤ y ∧ y ≤ 3) ∧
    (∃ z, relDelta (ratostick.decode data) .REL_WHEEL = some z ∧ -1 ≤ z ∧ z ≤ 2) := by
  obtain ⟨ax, ay, aw⟩ := relDelta_g_driver data
  obtain ⟨bx, by_, bw⟩ := relDelta_ratostick data
  have hxy : ∀ b : Byte, -4 ≤ Int.tdiv ((b.val : Int) - 128) 32 ∧
      Int.tdiv ((b.val : Int) - 128) 32 ≤ 3 := by decide!
  have hw : ∀ b : Byte, -1 ≤ -(Int.tdiv ((b.val : Int) - 128) 64) ∧
      -(Int.tdiv ((b.val : Int) - 128) 64) ≤ 2 := by decide!
  exact ⟨ax.trans bx.symm, ay.trans by_.symm, aw.trans bw.symm,
    ⟨_, bx, hxy (data 3)⟩, ⟨_, by_, hxy (data 4)⟩, ⟨_, bw, hw (data 1)⟩⟩

/-- C5, as stated, fails: for a report whose byte 3 is 0, Variant B does not
report REL_X = -8; it reports -4, as Variant A does. -/
theorem ratostick_rel_x_at_zero_not_minus_eight :
    relDelta (g_driver.decode (axisReport 0 0 0)) .REL_X = some (-4) ∧
    relDelta (ratostick.decode (axisReport 0 0 0)) .REL_X = some (-4) ∧
    relDelta (ratostick.decode (axisReport 0 0 0)) .REL_X ≠ some (-8) := by
  decide

/-- C5, amended: Variant B reads the buffer through an unsigned char pointer and
computes (byte - 128) / 32, (byte - 128) / 32 and -((byte - 128) / 64) on the
values 0..255, so at byte 3 = 0 both variants report REL_X = -4 and at
byte 3 = 128 both report 0. -/
theorem ratostick_axes_unsigned (data : Report) :
    relDelta (ratostick.decode data) .REL_X = some (Int.tdiv ((data 3).val - 128) 32) ∧
    relDelta (ratostick.decode data) .REL_Y = some (Int.tdiv ((data 4).val - 128) 32) ∧
    relDelta (ratostick.decode data) .REL_WHEEL
      = some (-(Int.tdiv ((data 1).val - 128) 64)) ∧
    (data 3 = 0 → relDelta (g_driver.decode data) .REL_X = some (-4) ∧
      relDelta (ratostick.decode data) .REL_X = some (-4)) ∧
    (data 3 = 128 → relDelta (g_driver.decode data) .REL_X = some 0 ∧
      relDelta (ratostick.decode data) .REL_X = some 0) := by
  obtain ⟨ax, -, -⟩ := relDelta_g_driver data
  obtain ⟨bx, by_, bw⟩ := relDelta_ratostick data
  refine ⟨bx, by_, bw, ?_, ?_⟩
  · intro h; rw [ax, bx, h]; decide
  · intro h; rw [ax, bx, h]; decide

/-- C3: in both files the completion handler calls submit zero times when
the status is -ECONNRESET, -ENOENT or -ESHUTDOWN and exactly once for every
other status; when that one submission fails the handler logs the failure as
its last act and the number of outstanding requests is unchanged, so it stays
0. -/
theorem irq_resubmits_by_status (bus : Nat → Int) (status : Int) (data : Report)
    (w : World) :
    (ratostick.usb_mouse_irq bus status data w).submits = w.submits +
      (if status = -ECONNRESET ∨ status = -ENOENT ∨ status = -ESHUTDOWN then 0 else 1) ∧
    (g_driver.usb_mouse_irq bus status data w).submits = w.submits +
      (if status = -ECONNRESET ∨ status = -ENOENT ∨ status = -ESHUTDOWN then 0 else 1) ∧
    ((ratostick.usb_mouse_irq bus status data w).trace.filter Action.isSubmit).length
      = (w.trace.filter Action.isSubmit).length +
        (if status = -ECONNRESET ∨ status = -ENOENT ∨ status = -ESHUTDOWN then 0 else 1) ∧
    ((g_driver.usb_mouse_irq bus status data w).trace.filter Action.isSubmit).length
      = (w.trace.filter Action.isSubmit).length +
        (if status = -ECONNRESET ∨ status = -ENOENT ∨ status = -ESHUTDOWN then 0 else 1) ∧
    (ratostick.usb_mouse_irq bus status data w).outstanding = w.outstanding +
      (if (status = -ECONNRESET ∨ status = -ENOENT ∨ status = -ESHUTDOWN)
          ∨ bus w.submits ≠ 0 then 0 else 1) ∧
    (g_driver.usb_mouse_irq bus status data w).outstanding = w.outstanding +
      (if (status = -ECONNRESET ∨ status = -ENOENT ∨ status = -ESHUTDOWN)
          ∨ bus w.submits ≠ 0 then 0 else 1) ∧
    (¬ (status = -ECONNRESET ∨ status = -ENOENT ∨ status = -ESHUTDOWN) →
      bus w.submits ≠ 0 →
      (∃ pre, (ratostick.usb_mouse_irq bus status data w).trace
          = pre ++ [.submit (bus w.submits), .dev_err (bus w.submits)]) ∧
      (∃ pre, (g_driver.usb_mouse_irq bus status data w).trace
          = pre ++ [.submit (bus w.submits), .dev_err (bus w.submits)])) ∧
    (w.outstanding = 0 →
      (status = -ECONNRESET ∨ status = -ENOENT ∨ status = -ESHUTDOWN)
        ∨ bus w.submits ≠ 0 →
      (ratostick.usb_mouse_irq bus status data w).outstanding = 0 ∧
      (g_driver.usb_mouse_irq bus status data w).outstanding = 0) := by
  have hE : ¬ ((0 : Int) = -ECONNRESET ∨ (0 : Int) = -ENOENT ∨ (0 : Int) = -ESHUTDOWN) := by
    decide
  by_cases h0 : status = 0
  · subst h0
    simp only [ratostick.usb_mouse_irq, g_driver.usb_mouse_irq, if_true, hE, if_false,
      resubmit_submits, resubmit_trace, resubmit_outstanding, World.emit, false_or]
    refine ⟨trivial, trivial, ?_, ?_, ?_, ?_, ?_, ?_⟩
    · by_cases hb : bus w.submits = 0 <;>
        simp [hb, filter_isSubmit_ratostick, Action.isSubmit]
    · by_cases hb : bus w.submits = 0 <;>
        simp [hb, filter_isSubmit_g_driver, Action.isSubmit]
    · by_cases hb : bus w.submits = 0 <;> simp [hb]
    · by_cases hb : bus w.submits = 0 <;> simp [hb]
    · intro _ hb
      simp only [hb, ne_eq, not_false_eq_true, if_true]
      exact ⟨⟨_, rfl⟩, ⟨_, rfl⟩⟩
    · intro hw hb
      simp [hw, hb]
  · by_cases hf : status = -ECONNRESET ∨ status = -ENOENT ∨ status = -ESHUTDOWN
    · simp [ratostick.usb_mouse_irq, g_driver.usb_mouse_irq, h0, hf, World.emit,
        Action.isSubmit]
    · simp only [ratostick.usb_mouse_irq, g_driver.usb_mouse_irq, h0, hf, if_false,
        resubmit_submits, resubmit_trace, resubmit_outstanding, World.emit, false_or]
      refine ⟨trivial, trivial, ?_, ?_, ?_, ?_, ?_, ?_⟩
      · by_cases hb : bus w.submits = 0 <;> simp [hb, Action.isSubmit]
      · by_cases hb : bus w.submits = 0 <;> simp [hb, Action.isSubmit]
      · by_cases hb : bus w.submits = 0 <;> simp [hb]
      · by_cases hb : bus w.submits = 0 <;> simp [hb]
      · intro _ hb
        simp only [hb, ne_eq, not_false_eq_true, if_true]
        exact ⟨⟨_, rfl⟩, ⟨_, rfl⟩⟩
      · intro hw hb
        simp [hw, hb]

/-- C4: in both files the handler delivers events to the input sink iff the
status is 0. On success the sink receives the decoder's key and rel reports
for the buffer followed by one sync, all before the submit call; for every
non-zero status the sink receives nothing. -/
theorem irq_events_by_status (bus : Nat → Int) (status : Int) (data : Report)
    (w : World) :
    (ratostick.usb_mouse_irq bus status data w).trace.filter Action.isSink
      = w.trace.filter Action.isSink ++
        (if status = 0 then ratostick.decode data ++ [.sync] else []) ∧
    (g_driver.usb_mouse_irq bus status data w).trace.filter Action.isSink
      = w.trace.filter Action.isSink ++
        (if status = 0 then g_driver.decode data ++ [.sync] else []) ∧
    (status = 0 → (ratostick.usb_mouse_irq bus status data w).trace
      = w.trace ++ ratostick.decode data ++ [.sync] ++ [.submit (bus w.submits)] ++
        (if bus w.submits ≠ 0 then [.dev_err (bus w.submits)] else [])) ∧
    (status = 0 → (g_driver.usb_mouse_irq bus status data w).trace
      = w.trace ++ [.pr_info] ++ g_driver.decode data ++ [.sync]
        ++ [.submit (bus w.submits)] ++
        (if bus w.submits ≠ 0 then [.dev_err (bus w.submits)] else [])) ∧
    (ratostick.decode data).all Action.isReport = true ∧
    (g_driver.decode data).all Action.isReport = true ∧
    ratostick.decode data ++ [.sync] ≠ [] ∧
    g_driver.decode data ++ [.sync] ≠ [] := by
  have hE : ¬ ((0 : Int) = -ECONNRESET ∨ (0 : Int) = -ENOENT ∨ (0 : Int) = -ESHUTDOWN) := by
    decide
  have hrB : (ratostick.decode data).all Action.isReport = true := by
    simp [ratostick.decode, input_report_key, input_report_rel, Action.isReport]
  have hrA : (g_driver.decode data).all Action.isReport = true := by
    simp [g_driver.decode, input_report_key, input_report_rel, Action.isReport]
  refine ⟨?_, ?_, ?_, ?_, hrB, hrA, by simp, by simp⟩
  · by_cases h0 : status = 0
    · subst h0
      by_cases hb : bus w.submits = 0 <;>
        simp [ratostick.usb_mouse_irq, resubmit_trace, World.emit, hb,
          filter_isSink_ratostick, Action.isSink]
    · by_cases hf : status = -ECONNRESET ∨ status = -ENOENT ∨ status = -ESHUTDOWN
      · simp [ratostick.usb_mouse_irq, h0, hf]
      · by_cases hb : bus w.submits = 0 <;>
          simp [ratostick.usb_mouse_irq, h0, hf, resubmit_trace, hb, Action.isSink]
  · by_cases h0 : status = 0
    · subst h0
      by_cases hb : bus w.submits = 0 <;>
        simp [g_driver.usb_mouse_irq, resubmit_trace, World.emit, hb,
          filter_isSink_g_driver, Action.isSink]
    · by_cases hf : status = -ECONNRESET ∨ status = -ENOENT ∨ status = -ESHUTDOWN
      · simp [g_driver.usb_mouse_irq, h0, hf, World.emit, Action.isSink]
      · by_cases hb : bus w.submits = 0 <;>
          simp [g_driver.usb_mouse_irq, h0, hf, resubmit_trace, hb, World.emit,
            Action.isSink]
  · intro h0
    subst h0
    by_cases hb : bus w.submits = 0 <;>
      simp [ratostick.usb_mouse_irq, resubmit_trace, World.emit, hb]
  · intro h0
    subst h0
    by_cases hb : bus w.submits = 0 <;>
      simp [g_driver.usb_mouse_irq, resubmit_trace, World.emit, hb]

/-- C6, as stated, fails: when the submission is refused, even with -ENOMEM,
open returns -EIO in both files, which is not the resource-exhaustion error. -/
theorem open_failure_is_not_enomem :
    (ratostick.usb_mouse_open (fun _ => -ENOMEM) 7 World.idle).1 = - EIO ∧
    (g_driver.usb_mouse_open (fun _ => -ENOMEM) 7 World.idle).1 = - EIO ∧
    (ratostick.usb_mouse_open (fun _ => -ENOMEM) 7 World.idle).1 ≠ -ENOMEM ∧
    (g_driver.usb_mouse_open (fun _ => -ENOMEM) 7 World.idle).1 ≠ -ENOMEM := by
  decide

/-- C6, amended: in both files open binds the request to the session's bus
device and submits it exactly once; it returns 0 iff the submission was queued,
and otherwise returns the I/O error -EIO, the number of outstanding requests
being unchanged. -/
theorem open_submits_once (bus : Nat → Int) (usbdev : Nat) (w : World) :
    (ratostick.usb_mouse_open bus usbdev w).2.irq_dev = some usbdev ∧
    (g_driver.usb_mouse_open bus usbdev w).2.irq_dev = some usbdev ∧
    (ratostick.usb_mouse_open bus usbdev w).2.trace
      = w.trace ++ [.submit (bus w.submits)] ∧
    (g_driver.usb_mouse_open bus usbdev w).2.trace
      = w.trace ++ [.pr_info, .submit (bus w.submits)] ∧
    (ratostick.usb_mouse_open bus usbdev w).2.submits = w.submits + 1 ∧
    (g_driver.usb_mouse_open bus usbdev w).2.submits = w.submits + 1 ∧
    ((ratostick.usb_mouse_open bus usbdev w).1 = 0 ↔ bus w.submits = 0) ∧
    ((g_driver.usb_mouse_open bus usbdev w).1 = 0 ↔ bus w.submits = 0) ∧
    (ratostick.usb_mouse_open bus usbdev w).1
      = (if bus w.submits = 0 then 0 else - EIO) ∧
    (g_driver.usb_mouse_open bus usbdev w).1
      = (if bus w.submits = 0 then 0 else - EIO) ∧
    (ratostick.usb_mouse_open bus usbdev w).2.outstanding
      = w.outstanding + (if bus w.submits = 0 then 1 else 0) ∧
    (g_driver.usb_mouse_open bus usbdev w).2.outstanding
      = w.outstanding + (if bus w.submits = 0 then 1 else 0) := by
  have hio : - EIO ≠ 0 := by decide
  by_cases hb : bus w.submits = 0 <;>
    simp [ratostick.usb_mouse_open, g_driver.usb_mouse_open, usb_submit_urb,
      World.emit, hb, hio]

/-- C9: probe returns -ENODEV with the kernel state untouched when the
interface does not have exactly two endpoints or its first endpoint is not
interrupt-IN; when an allocation of the session, the input device, the 8-byte
DMA buffer or the transfer request fails it returns -ENOMEM after releasing
what it had allocated in reverse order of allocation; and whenever it fails
the live allocations are those it started from. -/
theorem probe_leaks_nothing (intf : usb_host_interface) (o : Outcomes) (k : Kernel) :
    (intf.bNumEndpoints ≠ 2 → ratostick.usb_mouse_probe intf o k = (-ENODEV, k)) ∧
    (∀ h : intf.bNumEndpoints = 2,
      usb_endpoint_is_int_in (intf.endpoint ⟨0, by omega⟩) = false →
      ratostick.usb_mouse_probe intf o k = (-ENODEV, k)) ∧
    (endpoints_ok intf = true →
      o.kzalloc = false ∨ o.input_allocate_device = false ∨ o.usb_alloc_coherent = false
        ∨ o.usb_alloc_urb = false →
      (ratostick.usb_mouse_probe intf o k).1 = -ENOMEM ∧
      ∃ rs, rolledBack k (ratostick.usb_mouse_probe intf o k).2 rs) ∧
    ((ratostick.usb_mouse_probe intf o k).1 ≠ 0 →
      (ratostick.usb_mouse_probe intf o k).2.live = k.live) := by
  have hmem : -ENOMEM ≠ 0 := by decide
  refine ⟨fun h => ?_, fun h hin => ?_, fun hok hf => ?_, fun hr => ?_⟩
  · exact probe_rejects intf o k (by simp [endpoints_ok, h])
  · exact probe_rejects intf o k (by simp [endpoints_ok, h, hin])
  · have hret := (probe_accepted intf o k hok).1 hf
    exact ⟨hret, (probe_accepted intf o k hok).2 (by rw [hret]; exact hmem)⟩
  · cases hok : endpoints_ok intf
    · rw [probe_rejects intf o k hok]
    · obtain ⟨rs, -, hl, -⟩ := (probe_accepted intf o k hok).2 hr
      exact hl

end Ratostick
